import Mathlib

/-!
Shallow embedding of the weighing-server WebSocket message handler
(src/server.js, `wss.on("connection")` message handler) together with the
Mongo-backed device directory it reads and writes.

Conventions of the embedding:
* A Mongo `DeviceConfig` document is a `DeviceRecord`; the collection is a
  `List DeviceRecord`, with `findOne` returning the first record whose
  `deviceId` matches and `findOneAndUpdate` updating the first record
  matching its filter (`updateFirst`).
* JavaScript string truthiness (`""` is falsy) is `optTruthy` on optional
  strings; `parsed.version ? String(parsed.version).trim() : null` is
  `jsVersion`; `a || b || ""` on optional strings is `jsOr`.
* Outbound JSON objects are association lists of field name / value pairs
  (`Msg`), built by one builder per object literal in the source, with the
  fields in source order.  `x || null` on a string field is `orNull`.
* JS numbers are modelled as rationals (`ℚ`); every numeric value the
  claims touch is exactly representable.
* A WebSocket client is a `Conn`; the `id` field stands for the object
  identity that `client !== ws` compares; `isOpen` is
  `readyState === OPEN` at the time the handler runs.
* `handleMessage` is the dispatcher of the `ws.on("message")` callback in
  source order: hello, ota_ack, telemetry-by-shape, cfg, default-ignore.
  Its `Effect` records the new directory contents, the messages sent to
  the originating connection, and the per-recipient fan-out sends.
-/

/-- One document of the `DeviceConfig` Mongo collection (the device
directory record), fields as in the mongoose schema. -/
structure DeviceRecord where
  deviceId : String
  secondsToRead : ℚ
  threshold : ℚ
  enabled : Bool
  firmwareUrl : String
  firmwareVersion : String
  firmwareSha256 : String
  firmwareSize : ℚ
  firmwareUploadedAt : Option ℚ
deriving DecidableEq, Repr

/-- A JSON value as it appears in the outbound objects the server builds. -/
inductive JVal where
  | str : String → JVal
  | num : ℚ → JVal
  | boolv : Bool → JVal
  | null : JVal
deriving DecidableEq, Repr

/-- An outbound JSON object: field names with their values, in the order
of the object literal in the source. -/
abbrev Msg := List (String × JVal)

/-- A WebSocket client; `id` models object identity (`client !== ws`),
`isOpen` models `readyState === OPEN`, `boundDeviceId` models the
`ws.deviceId` tag set by a hello. -/
structure Conn where
  id : ℕ
  isOpen : Bool
  boundDeviceId : Option String
deriving DecidableEq, Repr

/-- A parsed inbound JSON message: the fields the handler inspects, each
optional (absent field = `none`). -/
structure InMsg where
  event : Option String
  deviceId : Option String
  version : Option String
  sha : Option String
  firmwareSha256 : Option String
  weight : Option ℚ
  kg : Option ℚ
  grams : Option ℚ
  timestamp : Option ℚ
deriving DecidableEq, Repr

/-- JavaScript `String.prototype.trim`, modelled structurally over the
character list (whitespace stripped from both ends), so that it is
kernel-computable. -/
def jsTrim (s : String) : String :=
  ⟨((s.data.dropWhile Char.isWhitespace).reverse.dropWhile
      Char.isWhitespace).reverse⟩

/-- JavaScript truthiness of an optional string: absent and `""` are
falsy, every other string truthy. -/
def optTruthy : Option String → Bool
  | none => false
  | some s => decide (s ≠ "")

/-- The source's `parsed.version ? String(parsed.version).trim() : null`:
a falsy (absent or empty) version becomes null, otherwise it is trimmed. -/
def jsVersion : Option String → Option String
  | none => none
  | some v => if v = "" then none else some (jsTrim v)

/-- The source's `a || b || ""` over two optional string fields. -/
def jsOr (a b : Option String) : String :=
  if optTruthy a then a.getD "" else if optTruthy b then b.getD "" else ""

/-- The source's `x || null` on a string field of an outbound object. -/
def orNull (s : String) : JVal :=
  if s = "" then JVal.null else JVal.str s

/-- The source's `parsed.timestamp || Date.now()` (numeric truthiness:
`0` is falsy). -/
def jsNumOr (t : Option ℚ) (now : ℚ) : ℚ :=
  match t with
  | some x => if x = 0 then now else x
  | none => now

/-- `DeviceConfig.findOne({ deviceId })`: first record with this id. -/
def findOne (dir : List DeviceRecord) (id : String) : Option DeviceRecord :=
  dir.find? (fun r => r.deviceId == id)

/-- `DeviceConfig.findOneAndUpdate(filter, update)`: rewrite the first
record satisfying the filter, leave the rest of the collection alone. -/
def updateFirst (p : DeviceRecord → Bool) (f : DeviceRecord → DeviceRecord) :
    List DeviceRecord → List DeviceRecord
  | [] => []
  | r :: rs => if p r then f r :: rs else r :: updateFirst p f rs

/-- The `{ event: "ota_ack", deviceId, version }` object the hello branch
sends back on a version match. -/
def otaAckMsg (deviceId version : String) : Msg :=
  [("event", JVal.str "ota_ack"), ("deviceId", JVal.str deviceId),
   ("version", JVal.str version)]

/-- The `ota` object of the hello branch:
`{ event: "ota", url, version: fv || null, firmwareSha256: sha || null, deviceId }`. -/
def otaMsg (c : DeviceRecord) (deviceId : String) : Msg :=
  [("event", JVal.str "ota"), ("url", JVal.str c.firmwareUrl),
   ("version", orNull c.firmwareVersion),
   ("firmwareSha256", orNull c.firmwareSha256),
   ("deviceId", JVal.str deviceId)]

/-- The `config` object the hello branch sends:
`{ event: "config", deviceId, secondsToRead, threshold, enabled }`. -/
def helloConfigMsg (c : DeviceRecord) (deviceId : String) : Msg :=
  [("event", JVal.str "config"), ("deviceId", JVal.str deviceId),
   ("secondsToRead", JVal.num c.secondsToRead),
   ("threshold", JVal.num c.threshold),
   ("enabled", JVal.boolv c.enabled)]

/-- The `config` object the cfg branch sends: the hello fields plus the
three firmware fields, each `|| null`. -/
def cfgConfigMsg (c : DeviceRecord) : Msg :=
  [("event", JVal.str "config"), ("deviceId", JVal.str c.deviceId),
   ("secondsToRead", JVal.num c.secondsToRead),
   ("threshold", JVal.num c.threshold),
   ("enabled", JVal.boolv c.enabled),
   ("firmwareUrl", orNull c.firmwareUrl),
   ("firmwareVersion", orNull c.firmwareVersion),
   ("firmwareSha256", orNull c.firmwareSha256)]

/-- The normalized telemetry object
`{ event: "telemetry", deviceId, weight, timestamp }`. -/
def telemetryMsg (deviceId : String) (w : ℚ) (ts : ℚ) : Msg :=
  [("event", JVal.str "telemetry"), ("deviceId", JVal.str deviceId),
   ("weight", JVal.num w), ("timestamp", JVal.num ts)]

/-- The source's unit selection for telemetry, in its if/else order:
`weight` if numeric, else `kg`, else `grams / 1000.0`; `none` exactly
when no unit field is present (`hasWeight` false). -/
def weightVal : Option ℚ → Option ℚ → Option ℚ → Option ℚ
  | some w, _, _ => some w
  | none, some k, _ => some k
  | none, none, g => g.map (fun x => x / 1000)

/-- The full normalized telemetry payload built from an inbound message
(`now` is the relay's `Date.now()` receive time). -/
def telemetryPayload (m : InMsg) (now : ℚ) : Msg :=
  telemetryMsg (jsTrim (m.deviceId.getD ""))
    ((weightVal m.weight m.kg m.grams).getD 0)
    (jsNumOr m.timestamp now)

/-- The hello branch of the message handler (src/server.js lines 238-297):
clear-and-ack on a version match, then the defensive ota notification,
then the config message; returns the directory after the branch ran and
the messages sent to the announcing connection, in send order.  The
source also tests `cfg.firmwareUrl.length > 0`, redundant with the
truthiness test on the same string, so modelled as the one inequality. -/
def handleHello (dir : List DeviceRecord) (rawId : String)
    (rawVersion : Option String) (wsOpen : Bool) :
    List DeviceRecord × List Msg :=
  let deviceId := jsTrim rawId
  let deviceVersion := jsVersion rawVersion
  match findOne dir deviceId with
  | none => (dir, [])
  | some c =>
    let doClear : Bool :=
      decide (c.firmwareVersion ≠ "") && optTruthy deviceVersion &&
        decide (deviceVersion = some c.firmwareVersion)
    let dir1 :=
      if doClear then
        updateFirst
          (fun r => r.deviceId == deviceId &&
            r.firmwareVersion == c.firmwareVersion)
          (fun r => { r with firmwareUrl := "", firmwareSha256 := "" }) dir
      else dir
    let msgs1 : List Msg :=
      if doClear && wsOpen then
        [otaAckMsg deviceId (deviceVersion.getD "")]
      else []
    let doOta : Bool :=
      decide (c.firmwareUrl ≠ "") &&
        (decide (c.firmwareVersion = "") ||
          decide (some c.firmwareVersion ≠ deviceVersion))
    let msgs2 : List Msg := if doOta then [otaMsg c deviceId] else []
    let msgs3 : List Msg := [helloConfigMsg c deviceId]
    (dir1, msgs1 ++ msgs2 ++ msgs3)

/-- The ota_ack branch (src/server.js lines 300-316): one
`findOneAndUpdate` setting version, hash (`parsed.sha ||
parsed.firmwareSha256 || ""`) and upload time and unsetting the url
(which reads back as the schema default `""`); no message is sent. -/
def handleOtaAck (dir : List DeviceRecord) (rawId rawVer : String)
    (sha fwSha : Option String) (now : ℚ) : List DeviceRecord :=
  let deviceId := jsTrim rawId
  let ver := jsTrim rawVer
  updateFirst (fun r => r.deviceId == deviceId)
    (fun r => { r with
      firmwareVersion := ver,
      firmwareSha256 := jsOr sha fwSha,
      firmwareUploadedAt := some now,
      firmwareUrl := "" }) dir

/-- The cfg branch (src/server.js lines 358-375): look up the record by
the raw (untrimmed) deviceId and reply with the extended config object,
only when the record exists and the requesting connection is open. -/
def handleCfg (dir : List DeviceRecord) (rawId : String) (wsOpen : Bool) :
    List Msg :=
  match findOne dir rawId with
  | some c => if wsOpen then [cfgConfigMsg c] else []
  | none => []

/-- What one run of the `ws.on("message")` callback did: the directory
contents afterwards, the messages sent to the originating connection, and
the (recipient, message) fan-out sends to other connections. -/
structure Effect where
  dir : List DeviceRecord
  toOrigin : List Msg
  toOthers : List (Conn × Msg)
deriving DecidableEq, Repr

/-- The dispatcher of the `ws.on("message")` callback, with the source's
guard order: hello, ota_ack, telemetry-by-shape (a truthy string
deviceId plus at least one numeric unit field), cfg, default-ignore.
`clients` is `wss.clients`, `ws` the originating connection, `wsOpen` its
`readyState === OPEN`, `now` the relay receive time. -/
def handleMessage (dir : List DeviceRecord) (clients : List Conn)
    (ws : Conn) (wsOpen : Bool) (m : InMsg) (now : ℚ) : Effect :=
  if decide (m.event = some "hello") && optTruthy m.deviceId then
    let r := handleHello dir (m.deviceId.getD "") m.version wsOpen
    ⟨r.1, r.2, []⟩
  else if decide (m.event = some "ota_ack") && optTruthy m.deviceId &&
      optTruthy m.version then
    ⟨handleOtaAck dir (m.deviceId.getD "") (m.version.getD "")
      m.sha m.firmwareSha256 now, [], []⟩
  else if optTruthy m.deviceId &&
      (m.weight.isSome || m.kg.isSome || m.grams.isSome) then
    ⟨dir, [],
      (clients.filter (fun c => decide (c ≠ ws) && c.isOpen)).map
        (fun c => (c, telemetryPayload m now))⟩
  else if decide (m.event = some "cfg") && optTruthy m.deviceId then
    ⟨dir, handleCfg dir (m.deviceId.getD "") wsOpen, []⟩
  else ⟨dir, [], []⟩

/-- Event-tag test on an outbound object. -/
def isEvent (e : String) (m : Msg) : Bool :=
  decide (m.lookup "event" = some (JVal.str e))

/-- How many of the sent objects carry a given event tag. -/
def countEvent (e : String) (ms : List Msg) : ℕ :=
  (ms.filter (isEvent e)).length

/-! Helper lemmas about the directory operations and message builders. -/

theorem findOne_deviceId {dir : List DeviceRecord} {id : String}
    {c : DeviceRecord} (hc : findOne dir id = some c) : c.deviceId = id := by
  unfold findOne at hc
  have h := List.find?_some hc
  simpa using h

theorem findOne_updateFirst {p : DeviceRecord → Bool}
    {f : DeviceRecord → DeviceRecord} {id : String} {c : DeviceRecord}
    {dir : List DeviceRecord}
    (hc : findOne dir id = some c) (hp : p c = true)
    (hpid : ∀ r, p r = true → r.deviceId = id)
    (hfid : (f c).deviceId = id) :
    findOne (updateFirst p f dir) id = some (f c) := by
  induction dir with
  | nil => simp [findOne] at hc
  | cons r rs ih =>
    by_cases hr : r.deviceId = id
    · have hb : (r.deviceId == id) = true := beq_iff_eq.mpr hr
      have hfound : c = r := by
        simp [findOne, List.find?, hb] at hc
        exact hc.symm
      subst hfound
      have hfb : ((f c).deviceId == id) = true := beq_iff_eq.mpr hfid
      simp [updateFirst, hp, findOne, List.find?, hfb]
    · have hb : (r.deviceId == id) = false := beq_eq_false_iff_ne.mpr hr
      have hpr : p r = false := by
        cases h : p r with
        | false => rfl
        | true => exact absurd (hpid r h) hr
      have hc' : findOne rs id = some c := by
        simpa [findOne, List.find?, hb] using hc
      simp [updateFirst, hpr, findOne, List.find?, hb]
      exact ih hc'

theorem updateFirst_of_findOne_none {f : DeviceRecord → DeviceRecord}
    {id : String} {dir : List DeviceRecord}
    (hc : findOne dir id = none) :
    updateFirst (fun r => r.deviceId == id) f dir = dir := by
  induction dir with
  | nil => rfl
  | cons r rs ih =>
    have hb : (r.deviceId == id) = false := by
      cases h : (r.deviceId == id) with
      | false => rfl
      | true => simp [findOne, List.find?, h] at hc
    have hc' : findOne rs id = none := by
      simpa [findOne, List.find?, hb] using hc
    simp [updateFirst, hb]
    exact ih hc'

@[simp] theorem isEvent_otaAckMsg_ack (i v : String) :
    isEvent "ota_ack" (otaAckMsg i v) = true := rfl

@[simp] theorem isEvent_otaAckMsg_ota (i v : String) :
    isEvent "ota" (otaAckMsg i v) = false := rfl

@[simp] theorem isEvent_otaAckMsg_config (i v : String) :
    isEvent "config" (otaAckMsg i v) = false := rfl

@[simp] theorem isEvent_otaMsg_ack (c : DeviceRecord) (i : String) :
    isEvent "ota_ack" (otaMsg c i) = false := rfl

@[simp] theorem isEvent_otaMsg_ota (c : DeviceRecord) (i : String) :
    isEvent "ota" (otaMsg c i) = true := rfl

@[simp] theorem isEvent_otaMsg_config (c : DeviceRecord) (i : String) :
    isEvent "config" (otaMsg c i) = false := rfl

@[simp] theorem isEvent_helloConfigMsg_ack (c : DeviceRecord) (i : String) :
    isEvent "ota_ack" (helloConfigMsg c i) = false := rfl

@[simp] theorem isEvent_helloConfigMsg_ota (c : DeviceRecord) (i : String) :
    isEvent "ota" (helloConfigMsg c i) = false := rfl

@[simp] theorem isEvent_helloConfigMsg_config (c : DeviceRecord) (i : String) :
    isEvent "config" (helloConfigMsg c i) = true := rfl

@[simp] theorem countEvent_nil (e : String) : countEvent e [] = 0 := rfl

@[simp] theorem countEvent_append (e : String) (a b : List Msg) :
    countEvent e (a ++ b) = countEvent e a + countEvent e b := by
  simp [countEvent, List.filter_append]

@[simp] theorem countEvent_cons (e : String) (m : Msg) (ms : List Msg) :
    countEvent e (m :: ms) =
      (if isEvent e m then 1 else 0) + countEvent e ms := by
  simp only [countEvent, List.filter_cons]
  split <;> simp [Nat.add_comm]

/-- The hello-clear `findOneAndUpdate` seen through `findOne`: the first
record for the device gets its url and hash emptied. -/
theorem findOne_clearUpdate {dir : List DeviceRecord} {id : String}
    {c : DeviceRecord} (hc : findOne dir id = some c) :
    findOne (updateFirst
      (fun r => r.deviceId == id && r.firmwareVersion == c.firmwareVersion)
      (fun r => { r with firmwareUrl := "", firmwareSha256 := "" }) dir) id =
    some { c with firmwareUrl := "", firmwareSha256 := "" } := by
  have hid : c.deviceId = id := findOne_deviceId hc
  exact findOne_updateFirst hc (by simp [hid])
    (fun r hr => by
      simp only [Bool.and_eq_true, beq_iff_eq] at hr
      exact hr.1)
    (by simpa using hid)

/-- The ota_ack `findOneAndUpdate` seen through `findOne`. -/
theorem findOne_ackUpdate {dir : List DeviceRecord} {id : String}
    {c : DeviceRecord} (hc : findOne dir id = some c)
    (ver sha : String) (now : ℚ) :
    findOne (updateFirst (fun r => r.deviceId == id)
      (fun r => { r with firmwareVersion := ver, firmwareSha256 := sha,
                         firmwareUploadedAt := some now, firmwareUrl := "" })
      dir) id =
    some { c with firmwareVersion := ver, firmwareSha256 := sha,
                  firmwareUploadedAt := some now, firmwareUrl := "" } := by
  have hid : c.deviceId = id := findOne_deviceId hc
  exact findOne_updateFirst hc (by simp [hid])
    (fun r hr => by simpa using hr)
    (by simpa using hid)

/-- C1: on a hello whose reported version matches the stored target while
an assignment is pending (non-empty url), the assignment is cleared,
exactly one ota_ack is sent to the announcing connection (here open), and
no ota message is sent while handling that hello. -/
theorem hello_versionMatch_clears_acks_noOta
    (dir : List DeviceRecord) (rawId : String) (rv : Option String)
    (c : DeviceRecord)
    (hc : findOne dir (jsTrim rawId) = some c)
    (_hurl : c.firmwareUrl ≠ "")
    (hfv : c.firmwareVersion ≠ "")
    (hv : jsVersion rv = some c.firmwareVersion) :
    findOne (handleHello dir rawId rv true).1 (jsTrim rawId) =
      some { c with firmwareUrl := "", firmwareSha256 := "" } ∧
    (handleHello dir rawId rv true).2.filter (isEvent "ota_ack") =
      [otaAckMsg (jsTrim rawId) c.firmwareVersion] ∧
    countEvent "ota" (handleHello dir rawId rv true).2 = 0 := by
  simp only [handleHello, hc, hv, optTruthy]
  simp [hfv, countEvent, List.filter_append]
  exact findOne_clearUpdate hc

/-- C9: the hello version-match branch fires even when no assignment is
pending (url already empty): the directory write happens and an ota_ack
is sent, for every record with a non-empty firmwareVersion. -/
theorem hello_versionMatch_acks_without_pending
    (dir : List DeviceRecord) (rawId : String) (rv : Option String)
    (c : DeviceRecord)
    (hc : findOne dir (jsTrim rawId) = some c)
    (hurl : c.firmwareUrl = "")
    (hfv : c.firmwareVersion ≠ "")
    (hv : jsVersion rv = some c.firmwareVersion) :
    findOne (handleHello dir rawId rv true).1 (jsTrim rawId) =
      some { c with firmwareUrl := "", firmwareSha256 := "" } ∧
    (handleHello dir rawId rv true).2.filter (isEvent "ota_ack") =
      [otaAckMsg (jsTrim rawId) c.firmwareVersion] := by
  simp only [handleHello, hc, hv, optTruthy]
  simp [hfv, hurl]
  exact findOne_clearUpdate hc

/-- C5 (amended): the hello-version-match clear empties `firmwareUrl` and
`firmwareSha256` and leaves every other field of the record unchanged. -/
theorem hello_clear_frame
    (dir : List DeviceRecord) (rawId : String) (rv : Option String)
    (o : Bool) (c : DeviceRecord)
    (hc : findOne dir (jsTrim rawId) = some c)
    (hfv : c.firmwareVersion ≠ "")
    (hv : jsVersion rv = some c.firmwareVersion) :
    (findOne (handleHello dir rawId rv o).1 (jsTrim rawId)).map
        (·.deviceId) = some c.deviceId ∧
    (findOne (handleHello dir rawId rv o).1 (jsTrim rawId)).map
        (·.secondsToRead) = some c.secondsToRead ∧
    (findOne (handleHello dir rawId rv o).1 (jsTrim rawId)).map
        (·.threshold) = some c.threshold ∧
    (findOne (handleHello dir rawId rv o).1 (jsTrim rawId)).map
        (·.enabled) = some c.enabled ∧
    (findOne (handleHello dir rawId rv o).1 (jsTrim rawId)).map
        (·.firmwareVersion) = some c.firmwareVersion ∧
    (findOne (handleHello dir rawId rv o).1 (jsTrim rawId)).map
        (·.firmwareSize) = some c.firmwareSize ∧
    (findOne (handleHello dir rawId rv o).1 (jsTrim rawId)).map
        (·.firmwareUploadedAt) = some c.firmwareUploadedAt ∧
    (findOne (handleHello dir rawId rv o).1 (jsTrim rawId)).map
        (·.firmwareUrl) = some "" ∧
    (findOne (handleHello dir rawId rv o).1 (jsTrim rawId)).map
        (·.firmwareSha256) = some "" := by
  have hmain : findOne (handleHello dir rawId rv o).1 (jsTrim rawId) =
      some { c with firmwareUrl := "", firmwareSha256 := "" } := by
    simp only [handleHello, hc, hv, optTruthy]
    simp [hfv]
    exact findOne_clearUpdate hc
  simp [hmain]

/-- C2: on a hello with a pending assignment whose reported version is
absent or different from the stored target, the directory is untouched,
exactly one ota message (the stored url/version/hash) goes to the
announcing connection, and the assignment stays pending. -/
theorem hello_pending_mismatch_sends_ota
    (dir : List DeviceRecord) (rawId : String) (rv : Option String)
    (o : Bool) (c : DeviceRecord)
    (hc : findOne dir (jsTrim rawId) = some c)
    (hurl : c.firmwareUrl ≠ "")
    (hv : jsVersion rv ≠ some c.firmwareVersion) :
    (handleHello dir rawId rv o).1 = dir ∧
    (handleHello dir rawId rv o).2.filter (isEvent "ota") =
      [otaMsg c (jsTrim rawId)] ∧
    (findOne (handleHello dir rawId rv o).1 (jsTrim rawId)).map
        (·.firmwareUrl) = some c.firmwareUrl := by
  have hv' : some c.firmwareVersion ≠ jsVersion rv := Ne.symm hv
  simp only [handleHello, hc]
  simp [hv, hv', hurl, hc]

@[simp] theorem countEvent_ite_singleton (e : String) (b : Bool) (m : Msg) :
    countEvent e (if b then [m] else []) =
      if isEvent e m && b then 1 else 0 := by
  cases b <;> cases h : isEvent e m <;> simp [countEvent, h]

/-- C3 (amended): a hello produces exactly one config message when a
directory record exists for the announced device, and none at all when no
record exists; the count never depends on the assignment state or the
reported version. -/
theorem hello_config_count
    (dir : List DeviceRecord) (rawId : String) (rv : Option String)
    (o : Bool) :
    countEvent "config" (handleHello dir rawId rv o).2 =
      if (findOne dir (jsTrim rawId)).isSome then 1 else 0 := by
  cases hfind : findOne dir (jsTrim rawId) with
  | none => simp [handleHello, hfind, countEvent]
  | some c =>
    simp only [handleHello, hfind]
    simp [countEvent_append]
    split_ifs <;> simp [countEvent]

/-- C3 counterexample: a hello from a device with no directory record
produces zero config messages, not one. -/
theorem hello_no_record_no_config :
    countEvent "config" (handleHello [] "dev-9" (some "1.0") true).2 = 0 :=
  rfl

/-- A concrete record with a pending assignment (for the concrete
evaluations below). -/
def recPending : DeviceRecord :=
  { deviceId := "dev-1", secondsToRead := 1000, threshold := 50,
    enabled := true, firmwareUrl := "http://x/fw.bin",
    firmwareVersion := "2.0", firmwareSha256 := "abc",
    firmwareSize := 7, firmwareUploadedAt := none }

/-- A concrete record with no pending assignment but a known running
version. -/
def recApplied : DeviceRecord :=
  { deviceId := "dev-2", secondsToRead := 500, threshold := 10,
    enabled := false, firmwareUrl := "",
    firmwareVersion := "3.1", firmwareSha256 := "ddd",
    firmwareSize := 3, firmwareUploadedAt := some 99 }

theorem hello_versionMatch_witness :
    findOne (handleHello [recPending] "dev-1" (some "2.0") true).1
        (jsTrim "dev-1") =
      some { recPending with firmwareUrl := "", firmwareSha256 := "" } ∧
    (handleHello [recPending] "dev-1" (some "2.0") true).2.filter
        (isEvent "ota_ack") =
      [otaAckMsg (jsTrim "dev-1") recPending.firmwareVersion] ∧
    countEvent "ota"
      (handleHello [recPending] "dev-1" (some "2.0") true).2 = 0 :=
  hello_versionMatch_clears_acks_noOta [recPending] "dev-1" (some "2.0")
    recPending (by decide) (by decide) (by decide) (by decide)

theorem hello_versionMatch_noPending_witness :
    findOne (handleHello [recApplied] "dev-2" (some "3.1") true).1
        (jsTrim "dev-2") =
      some { recApplied with firmwareUrl := "", firmwareSha256 := "" } ∧
    (handleHello [recApplied] "dev-2" (some "3.1") true).2.filter
        (isEvent "ota_ack") =
      [otaAckMsg (jsTrim "dev-2") recApplied.firmwareVersion] :=
  hello_versionMatch_acks_without_pending [recApplied] "dev-2" (some "3.1")
    recApplied (by decide) (by decide) (by decide) (by decide)

theorem hello_pending_mismatch_witness :
    (handleHello [recPending] "dev-1" (some "1.0") true).1 = [recPending] ∧
    (handleHello [recPending] "dev-1" (some "1.0") true).2.filter
        (isEvent "ota") = [otaMsg recPending (jsTrim "dev-1")] ∧
    (findOne (handleHello [recPending] "dev-1" (some "1.0") true).1
        (jsTrim "dev-1")).map (·.firmwareUrl) =
      some recPending.firmwareUrl :=
  hello_pending_mismatch_sends_ota [recPending] "dev-1" (some "1.0") true
    recPending (by decide) (by decide) (by decide)

theorem hello_clear_frame_witness :
    (findOne (handleHello [recPending] "dev-1" (some "2.0") false).1
        (jsTrim "dev-1")).map (·.deviceId) = some recPending.deviceId ∧
    (findOne (handleHello [recPending] "dev-1" (some "2.0") false).1
        (jsTrim "dev-1")).map (·.secondsToRead) =
      some recPending.secondsToRead ∧
    (findOne (handleHello [recPending] "dev-1" (some "2.0") false).1
        (jsTrim "dev-1")).map (·.threshold) = some recPending.threshold ∧
    (findOne (handleHello [recPending] "dev-1" (some "2.0") false).1
        (jsTrim "dev-1")).map (·.enabled) = some recPending.enabled ∧
    (findOne (handleHello [recPending] "dev-1" (some "2.0") false).1
        (jsTrim "dev-1")).map (·.firmwareVersion) =
      some recPending.firmwareVersion ∧
    (findOne (handleHello [recPending] "dev-1" (some "2.0") false).1
        (jsTrim "dev-1")).map (·.firmwareSize) =
      some recPending.firmwareSize ∧
    (findOne (handleHello [recPending] "dev-1" (some "2.0") false).1
        (jsTrim "dev-1")).map (·.firmwareUploadedAt) =
      some recPending.firmwareUploadedAt ∧
    (findOne (handleHello [recPending] "dev-1" (some "2.0") false).1
        (jsTrim "dev-1")).map (·.firmwareUrl) = some "" ∧
    (findOne (handleHello [recPending] "dev-1" (some "2.0") false).1
        (jsTrim "dev-1")).map (·.firmwareSha256) = some "" :=
  hello_clear_frame [recPending] "dev-1" (some "2.0") false recPending
    (by decide) (by decide) (by decide)

/-- C5 counterexample: the hello-version-match clear does not leave
`firmwareSha256` unchanged; a stored hash "abc" is wiped to "". -/
theorem hello_clear_changes_sha :
    recPending.firmwareSha256 = "abc" ∧
    (findOne (handleHello [recPending] "dev-1" (some "2.0") true).1
        (jsTrim "dev-1")).map (·.firmwareSha256) = some "" := by
  decide

/-- C4 (amended): an ota_ack sets the record's version to the reported
one, stamps the update time, clears the url, sends nothing back, and
overwrites `firmwareSha256` with the supplied hash or with the empty
string when no hash was supplied (the stored hash is not preserved). -/
theorem otaAck_updates_record
    (dir : List DeviceRecord) (clients : List Conn) (ws : Conn) (o : Bool)
    (m : InMsg) (now : ℚ) (c : DeviceRecord)
    (hev : m.event = some "ota_ack")
    (hd : optTruthy m.deviceId = true)
    (hv : optTruthy m.version = true)
    (hc : findOne dir (jsTrim (m.deviceId.getD "")) = some c) :
    findOne (handleMessage dir clients ws o m now).dir
        (jsTrim (m.deviceId.getD "")) =
      some { c with firmwareVersion := jsTrim (m.version.getD ""),
                    firmwareSha256 := jsOr m.sha m.firmwareSha256,
                    firmwareUploadedAt := some now, firmwareUrl := "" } ∧
    (handleMessage dir clients ws o m now).toOrigin = [] ∧
    (handleMessage dir clients ws o m now).toOthers = [] := by
  simp only [handleMessage, hev]
  simp [hd, hv, handleOtaAck]
  exact findOne_ackUpdate hc (jsTrim (m.version.getD ""))
    (jsOr m.sha m.firmwareSha256) now

/-- C10: an ota_ack naming a device with no directory record leaves the
directory exactly as it was and sends nothing to anyone. -/
theorem otaAck_unknown_device
    (dir : List DeviceRecord) (clients : List Conn) (ws : Conn) (o : Bool)
    (m : InMsg) (now : ℚ)
    (hev : m.event = some "ota_ack")
    (hd : optTruthy m.deviceId = true)
    (hv : optTruthy m.version = true)
    (hc : findOne dir (jsTrim (m.deviceId.getD "")) = none) :
    (handleMessage dir clients ws o m now).dir = dir ∧
    (handleMessage dir clients ws o m now).toOrigin = [] ∧
    (handleMessage dir clients ws o m now).toOthers = [] := by
  simp only [handleMessage, hev]
  simp [hd, hv, handleOtaAck]
  exact updateFirst_of_findOne_none hc

/-- An ota_ack reporting a version with no hash field (for the concrete
evaluations below). -/
def ackNoHash : InMsg :=
  { event := some "ota_ack", deviceId := some "dev-1",
    version := some "9.9", sha := none, firmwareSha256 := none,
    weight := none, kg := none, grams := none, timestamp := none }

/-- An ota_ack carrying a hash in the `sha` field. -/
def ackWithHash : InMsg :=
  { event := some "ota_ack", deviceId := some "dev-1",
    version := some "9.9", sha := some "newhash", firmwareSha256 := none,
    weight := none, kg := none, grams := none, timestamp := none }

/-- A connection bound to dev-1, open. -/
def wsA : Conn := { id := 0, isOpen := true, boundDeviceId := some "dev-1" }

/-- A second open connection. -/
def wsB : Conn := { id := 1, isOpen := true, boundDeviceId := none }

/-- A third connection that is not open. -/
def wsC : Conn := { id := 2, isOpen := false, boundDeviceId := none }

/-- C4 counterexample: an ota_ack without a hash field does not leave the
stored hash unchanged; the record's "abc" is overwritten with "". -/
theorem otaAck_overwrites_sha :
    recPending.firmwareSha256 = "abc" ∧
    (findOne (handleMessage [recPending] [wsA] wsA true ackNoHash 123).dir
        "dev-1").map (·.firmwareSha256) = some "" := by
  decide

theorem otaAck_updates_record_witness :
    findOne
        (handleMessage [recPending] [wsA] wsA true ackWithHash 123).dir
        (jsTrim (ackWithHash.deviceId.getD "")) =
      some { recPending with
              firmwareVersion := jsTrim (ackWithHash.version.getD ""),
              firmwareSha256 := jsOr ackWithHash.sha ackWithHash.firmwareSha256,
              firmwareUploadedAt := some 123, firmwareUrl := "" } ∧
    (handleMessage [recPending] [wsA] wsA true ackWithHash 123).toOrigin =
      [] ∧
    (handleMessage [recPending] [wsA] wsA true ackWithHash 123).toOthers =
      [] :=
  otaAck_updates_record [recPending] [wsA] wsA true ackWithHash 123
    recPending (by decide) (by decide) (by decide) (by decide)

theorem otaAck_unknown_device_witness :
    (handleMessage [recApplied] [wsA] wsA true ackNoHash 7).dir =
      [recApplied] ∧
    (handleMessage [recApplied] [wsA] wsA true ackNoHash 7).toOrigin = [] ∧
    (handleMessage [recApplied] [wsA] wsA true ackNoHash 7).toOthers = [] :=
  otaAck_unknown_device [recApplied] [wsA] wsA true ackNoHash 7
    (by decide) (by decide) (by decide) (by decide)

/-- C6: a telemetry message is fanned out to exactly the other open
connections: the origin never receives it, every other currently-open
registered connection does. -/
theorem telemetry_origin_exclusion
    (dir : List DeviceRecord) (clients : List Conn) (ws : Conn) (o : Bool)
    (m : InMsg) (now : ℚ)
    (hev : m.event = none)
    (hd : optTruthy m.deviceId = true)
    (hw : (m.weight.isSome || m.kg.isSome || m.grams.isSome) = true) :
    (handleMessage dir clients ws o m now).toOrigin = [] ∧
    (∀ p, p ∈ (handleMessage dir clients ws o m now).toOthers →
      p.1 ≠ ws ∧ p.1.isOpen = true) ∧
    (∀ c, c ∈ clients → c ≠ ws → c.isOpen = true →
      (c, telemetryPayload m now) ∈
        (handleMessage dir clients ws o m now).toOthers) := by
  have heff : handleMessage dir clients ws o m now =
      ⟨dir, [],
        (clients.filter (fun c => decide (c ≠ ws) && c.isOpen)).map
          (fun c => (c, telemetryPayload m now))⟩ := by
    simp [handleMessage, hev, hd, hw]
  rw [heff]
  refine ⟨rfl, ?_, ?_⟩
  · intro p hp
    simp only [List.mem_map, List.mem_filter, Bool.and_eq_true,
      decide_eq_true_eq] at hp
    obtain ⟨a, ⟨_, hne, hopen⟩, heq⟩ := hp
    subst heq
    exact ⟨hne, hopen⟩
  · intro c hmem hne hopen
    simp only [List.mem_map, List.mem_filter, Bool.and_eq_true,
      decide_eq_true_eq]
    exact ⟨c, ⟨hmem, hne, hopen⟩, rfl⟩

/-- A telemetry message carrying only a grams unit field (2500 g). -/
def gramsMsg : InMsg :=
  { event := none, deviceId := some "dev-1", version := none,
    sha := none, firmwareSha256 := none, weight := none, kg := none,
    grams := some 2500, timestamp := some 77 }

theorem telemetry_origin_exclusion_witness :
    (wsB, telemetryPayload gramsMsg 0) ∈
      (handleMessage [] [wsA, wsB, wsC] wsA true gramsMsg 0).toOthers :=
  (telemetry_origin_exclusion [] [wsA, wsB, wsC] wsA true gramsMsg 0
    rfl (by decide) (by decide)).2.2 wsB (by decide) (by decide) rfl

/-- C7: the telemetry unit is chosen by the fixed priority weight, then
kg, then grams (grams divided by 1000); concretely a grams 2500 message
fans out carrying weight 5/2, i.e. 2.5 kg. -/
theorem telemetry_weight_priority :
    (∀ x k g, weightVal (some x) k g = some x) ∧
    (∀ x g, weightVal none (some x) g = some x) ∧
    (∀ x, weightVal none none (some x) = some (x / 1000)) ∧
    (handleMessage [] [wsA, wsB] wsA true gramsMsg 0).toOthers =
      [(wsB, telemetryMsg (jsTrim "dev-1") (5 / 2) 77)] := by
  refine ⟨fun x k g => rfl, fun x g => rfl, fun x => rfl, ?_⟩
  have h25 : (2500 : ℚ) / 1000 = 5 / 2 := by norm_num
  simp [handleMessage, gramsMsg, optTruthy, telemetryPayload, weightVal,
    jsNumOr, wsA, wsB, h25]

/-- A cfg request for dev-1. -/
def cfgReq : InMsg :=
  { event := some "cfg", deviceId := some "dev-1", version := none,
    sha := none, firmwareSha256 := none, weight := none, kg := none,
    grams := none, timestamp := none }

/-- C8 (amended): a cfg request answers only the requesting connection
and only while it is open, with a config message that extends the
hello-triggered one by the three firmware fields (so the two shapes are
not identical); the directory is untouched. -/
theorem cfg_reply_shape
    (dir : List DeviceRecord) (clients : List Conn) (ws : Conn) (o : Bool)
    (m : InMsg) (now : ℚ) (c : DeviceRecord)
    (hev : m.event = some "cfg")
    (hd : optTruthy m.deviceId = true)
    (hwt : m.weight = none) (hkg : m.kg = none) (hgr : m.grams = none)
    (hc : findOne dir (m.deviceId.getD "") = some c) :
    (handleMessage dir clients ws o m now).toOrigin =
      (if o then [cfgConfigMsg c] else []) ∧
    (handleMessage dir clients ws o m now).toOthers = [] ∧
    (handleMessage dir clients ws o m now).dir = dir ∧
    cfgConfigMsg c =
      helloConfigMsg c c.deviceId ++
        [("firmwareUrl", orNull c.firmwareUrl),
         ("firmwareVersion", orNull c.firmwareVersion),
         ("firmwareSha256", orNull c.firmwareSha256)] := by
  refine ⟨?_, ?_, ?_, rfl⟩ <;>
    · simp only [handleMessage, hev]
      simp [hd, hwt, hkg, hgr, handleCfg, hc]

/-- C8 counterexample: on a concrete record the field set of the
cfg-triggered config differs from the field set of the hello-triggered
config, so the two messages are not identical in shape. -/
theorem cfg_config_shape_differs :
    (helloConfigMsg recPending recPending.deviceId).map Prod.fst ≠
      (cfgConfigMsg recPending).map Prod.fst := by
  decide

theorem cfg_reply_shape_witness :
    (handleMessage [recPending] [wsA] wsA true cfgReq 0).toOrigin =
      (if true then [cfgConfigMsg recPending] else []) ∧
    (handleMessage [recPending] [wsA] wsA true cfgReq 0).toOthers = [] ∧
    (handleMessage [recPending] [wsA] wsA true cfgReq 0).dir =
      [recPending] ∧
    cfgConfigMsg recPending =
      helloConfigMsg recPending recPending.deviceId ++
        [("firmwareUrl", orNull recPending.firmwareUrl),
         ("firmwareVersion", orNull recPending.firmwareVersion),
         ("firmwareSha256", orNull recPending.firmwareSha256)] :=
  cfg_reply_shape [recPending] [wsA] wsA true cfgReq 0 recPending
    rfl (by decide) rfl rfl rfl (by decide)
